import Mathlib

/-!
Shallow embedding of the EV Uptime Guardian planning pipeline
(repository `Agentic_EV`, directory `apps/backend/app`).

All Python floats are modelled as exact rationals (`ℚ`); Python ints as `ℤ`
or `ℕ`; fallible Python code (statements that can raise) is modelled with
`Except`/`Option`, where the `error`/`none` value stands for the raised
exception.  Definitions are translated from the source files named in the
doc comments.
-/

namespace EVGuardian

/-- SQLAlchemy model `Connector` (`app/models.py`, class `Connector`):
the fields the planning logic reads.  Note the connector-type column is
named `type` in the model; we keep that name. -/
structure Connector where
  connector_id : String
  station_id : String
  type : String
  status : String
  trust_badge : String
deriving DecidableEq, Repr

/-- A Python runtime value that can appear in the `trust_badge` position:
either a string (the intended badge letters) or a whole `Connector` record
(what `app/agent/tools.py` actually passes to `station_trust_badge`). -/
inductive PyVal where
  | str (s : String)
  | conn (c : Connector)
deriving DecidableEq, Repr

/-- `AVG_SESSION_MIN_DC = 28` (`app/utils/constants.py`). -/
def AVG_SESSION_MIN_DC : ℚ := 28

/-- `AVG_SESSION_MIN_AC = 75` (`app/utils/constants.py`). -/
def AVG_SESSION_MIN_AC : ℚ := 75

/-- `TRUST_FACTOR.get(badge, TRUST_FACTOR['D'])` (`app/utils/constants.py`
together with the `.get` default used at both call sites): A ↦ 0.9,
B ↦ 1.0, C ↦ 1.2, D ↦ 1.5, anything else ↦ the `'D'` entry 1.5. -/
def TRUST_FACTOR_get (b : PyVal) : ℚ :=
  match b with
  | .str "A" => 9/10
  | .str "B" => 1
  | .str "C" => 12/10
  | .str "D" => 3/2
  | _ => 3/2

/-- `order.get(b, 3)` inside `station_trust_badge`
(`app/utils/trustbadge.py`): A ↦ 0, B ↦ 1, C ↦ 2, D ↦ 3, and any other
value (including a `Connector` record) defaults to 3. -/
def badgeOrderGet (b : PyVal) : ℕ :=
  match b with
  | .str "A" => 0
  | .str "B" => 1
  | .str "C" => 2
  | .str "D" => 3
  | _ => 3

/-- `station_trust_badge(badges)` (`app/utils/trustbadge.py`):
`max(badges, key=lambda b: order.get(b, 3))`.  Python `max` raises
`ValueError` on an empty sequence and otherwise returns the first element
attaining the maximal key (later elements replace the current best only
when strictly greater). -/
def station_trust_badge : List PyVal → Except String PyVal
  | [] => .error "ValueError: max() arg is an empty sequence"
  | b :: bs =>
      .ok (bs.foldl (fun best x =>
        if badgeOrderGet best < badgeOrderGet x then x else best) b)

/-- Output dictionary of the wait-prediction tools
(`station_predict` in `app/agent/tools.py` and `predict_wait` in
`app/tools/station.py`): keys `station_id`, `p50_wait`, `p90_wait`,
`free`, `trust_badge`. -/
structure PredOut where
  station_id : String
  p50_wait : ℚ
  p90_wait : ℚ
  free : ℤ
  trust_badge : PyVal
deriving DecidableEq, Repr

/-- `active = sum(1 for c in connectors if c.status == 'charging')`. -/
def countActive (cs : List Connector) : ℤ :=
  ((cs.filter (fun c => c.status = "charging")).length : ℤ)

/-- `free = sum(1 for c in connectors if c.status == 'available')`. -/
def countFree (cs : List Connector) : ℤ :=
  ((cs.filter (fun c => c.status = "available")).length : ℤ)

/-- `load_factor = max(0, active - free)` (both prediction tools). -/
def loadFactor (cs : List Connector) : ℤ :=
  max 0 (countActive cs - countFree cs)

/-- `dc_count = sum(1 for c in connectors if c.connector_type == 'DC')`
(`app/agent/tools.py`, line 78).  The `Connector` model defines the column
`type`, not `connector_type`, so evaluating the generator on the first
element raises `AttributeError`; over an empty list the generator yields
nothing, no attribute is read, and the sum is 0. -/
def agentDcCount (cs : List Connector) : Except String ℤ :=
  match cs with
  | [] => .ok 0
  | _ => .error "AttributeError: Connector object has no attribute connector_type"

/-- `avg_session_min` in `app/agent/tools.py` (lines 81-87):
the DC default when there are no connectors, else the connector-type
weighted mean of the DC/AC session-duration defaults.  (Reaching the
weighted-mean branch at runtime is prevented by the `connector_type`
`AttributeError` of `agentDcCount`; the formula itself is as written.) -/
def agentAvgSession (dc_count ac_count : ℤ) : ℚ :=
  if dc_count + ac_count = 0 then AVG_SESSION_MIN_DC
  else ((dc_count : ℚ) * AVG_SESSION_MIN_DC + (ac_count : ℚ) * AVG_SESSION_MIN_AC)
        / ((dc_count : ℚ) + (ac_count : ℚ))

/-- `station_predict(station_id)` (`app/agent/tools.py`, lines 60-105),
after the station row has been fetched: the computation on the station's
connector list.  Statements are modelled in source order; the first one
that raises aborts the call:
1. `active`, `free`, `load_factor` (attribute `status` exists: no error);
2. `dc_count` reads `c.connector_type` — `AttributeError` on any
   non-empty connector list (`agentDcCount`);
3. `avg_session_min` via `agentAvgSession`;
4. `trust_badge = station_trust_badge(connectors)` — the connector
   records themselves, not their badge strings, are passed
   (`ValueError` when the list is empty);
5. `trust_factor = TRUST_FACTOR.get(trust_badge, TRUST_FACTOR['D'])`;
6. `p50_wait = load_factor * avg_session_min * trust_factor`,
   `p90_wait = 1.6 * p50_wait`. -/
def agent_station_predict (station_id : String) (cs : List Connector) :
    Except String PredOut :=
  match agentDcCount cs with
  | .error e => .error e
  | .ok dc =>
    let ac : ℤ := (cs.length : ℤ) - dc
    let avg := agentAvgSession dc ac
    match station_trust_badge (cs.map PyVal.conn) with
    | .error e => .error e
    | .ok tb =>
      let tf := TRUST_FACTOR_get tb
      let p50 := (loadFactor cs : ℚ) * avg * tf
      .ok ⟨station_id, p50, (16/10) * p50, countFree cs, tb⟩

/-- `predict_wait(station_id)` (`app/tools/station.py`, lines 58-120),
after the station row has been fetched: the computation on the station's
connector list.  An empty connector list returns early with zero waits,
`free = 0` and badge `"D"` (lines 71-78).  Otherwise `dc_count` uses the
real attribute `c.type`; `avg_session_min` is the weighted mean when
`dc_count + ac_count > 0` and `0` otherwise (line 97 — unreachable here,
kept as written); the badge passed to `station_trust_badge` is the list
of connector badge *strings* (line 100). -/
def predict_wait (station_id : String) (cs : List Connector) :
    Except String PredOut :=
  match cs with
  | [] => .ok ⟨station_id, 0, 0, 0, .str "D"⟩
  | _ =>
    let dc : ℤ := ((cs.filter (fun c => c.type = "DC")).length : ℤ)
    let ac : ℤ := (cs.length : ℤ) - dc
    let avg : ℚ :=
      if 0 < dc + ac then
        ((dc : ℚ) * AVG_SESSION_MIN_DC + (ac : ℚ) * AVG_SESSION_MIN_AC)
          / ((dc : ℚ) + (ac : ℚ))
      else 0
    match station_trust_badge (cs.map (fun c => PyVal.str c.trust_badge)) with
    | .error e => .error e
    | .ok tb =>
      let tf := TRUST_FACTOR_get tb
      let p50 := (loadFactor cs : ℚ) * avg * tf
      .ok ⟨station_id, p50, (16/10) * p50, countFree cs, tb⟩

/-! ### Color bands (`app/utils/colorband.py`, `app/config.py`) -/

/-- Splits a character list at a separator character, Python
`str.split(sep)` style (`"10,25".split(",") == ["10", "25"]`). -/
def splitOnChar (sep : Char) : List Char → List (List Char)
  | [] => [[]]
  | c :: rest =>
    if c = sep then [] :: splitOnChar sep rest
    else
      match splitOnChar sep rest with
      | [] => [[c]]
      | g :: gs => (c :: g) :: gs

/-- Parses a non-empty digit string as a natural number; `none` if any
character is not a digit or the string is empty. -/
def parseDigits : List Char → Option ℕ
  | [] => none
  | cs => cs.foldl (fun acc c =>
      acc.bind fun n => if c.isDigit then some (n * 10 + (c.toNat - 48)) else none)
      (some 0)

/-- Python `float(s)` restricted to the literal shapes the configuration
uses: an optional leading minus sign, then digits with an optional
fractional part (`"10"`, `"2.5"`, `"-3.25"`).  Any other string is
`none`, standing for the `ValueError` that `float` raises. -/
def parseFloat (s : List Char) : Option ℚ :=
  let (neg, body) := match s with
    | '-' :: rest => (true, rest)
    | _ => (false, s)
  let mag : Option ℚ :=
    match splitOnChar '.' body with
    | [i] => (parseDigits i).map (fun n => (n : ℚ))
    | [i, f] =>
      (parseDigits i).bind fun ni =>
        (parseDigits f).map fun nf =>
          (ni : ℚ) + (nf : ℚ) / ((10 : ℚ) ^ f.length)
    | _ => none
  mag.map fun q => if neg then -q else q

/-- `low, high = map(float, band_str.split(","))`
(`app/utils/colorband.py`, line 20): `none` models the `ValueError`
raised either by the tuple unpacking (when the split does not yield
exactly two parts) or by `float` on a malformed part. -/
def parseBands (s : List Char) : Option (ℚ × ℚ) :=
  match splitOnChar ',' s with
  | [a, b] =>
    (parseFloat a).bind fun low => (parseFloat b).map fun high => (low, high)
  | _ => none

/-- `Settings.COLOR_BANDS` default `"10,25"` (`app/config.py`, line 13). -/
def COLOR_BANDS : List Char := "10,25".data

/-- `band_from_minutes(expected_start_min, bands)`
(`app/utils/colorband.py`): parse the override string if given, else the
configured `COLOR_BANDS`; on a successful parse map
`≤ low → "green"`, `≤ high → "amber"`, else `"red"`; on any parsing
error fall back to the hard-coded defaults 10 and 25 (lines 30-37). -/
def band_from_minutes (expected_start_min : ℚ) (bands : Option (List Char)) :
    String :=
  let band_str := bands.getD COLOR_BANDS
  match parseBands band_str with
  | some (low, high) =>
    if expected_start_min ≤ low then "green"
    else if expected_start_min ≤ high then "amber"
    else "red"
  | none =>
    if expected_start_min ≤ 10 then "green"
    else if expected_start_min ≤ 25 then "amber"
    else "red"

/-! ### Route / ETA (`app/utils/haversine.py`, `app/utils/osrm_client.py`,
`app/agent/tools.py`)

The haversine great-circle distance is real-valued trigonometry; both the
formula of `route_eta_minutes` and the fallback of `route_compute_eta`
consume the same `distance_km(...)` value, so the distance is abstracted
as a rational parameter `d` here.  The wall-clock hour read by
`datetime.now().hour` is likewise passed explicitly. -/

/-- `Settings.DEFAULT_HIGHWAY_KMPH = 50.0` (`app/config.py`). -/
def DEFAULT_HIGHWAY_KMPH : ℚ := 50

/-- `Settings.DEFAULT_URBAN_KMPH = 25.0` (`app/config.py`). -/
def DEFAULT_URBAN_KMPH : ℚ := 25

/-- `current_hour in range(8, 11) or current_hour in range(17, 21)`
(`app/utils/haversine.py`, line 53). -/
def isPeakHour (hour : ℕ) : Bool :=
  (8 ≤ hour && hour < 11) || (17 ≤ hour && hour < 21)

/-- `eta_minutes_from_speed(distance_km, speed_kmph, peak_fudge)`
(`app/utils/haversine.py`, lines 36-56): `distance / speed * 60`, times
1.15 when `peak_fudge` is set and the current hour is in the morning or
evening peak window. -/
def eta_minutes_from_speed (d speed : ℚ) (peak_fudge : Bool) (hour : ℕ) : ℚ :=
  let minutes := d / speed * 60
  if peak_fudge && isPeakHour hour then minutes * (115/100) else minutes

/-- `route_eta_minutes(origin, dest)` (`app/utils/osrm_client.py`,
lines 25-51) as a function of the haversine distance `d` between the two
points: highway speed when `d > 15`, else urban speed, with
`peak_fudge=True`. -/
def route_eta_minutes (d : ℚ) (hour : ℕ) : ℚ :=
  let speed := if 15 < d then DEFAULT_HIGHWAY_KMPH else DEFAULT_URBAN_KMPH
  eta_minutes_from_speed d speed true hour

/-- Result dictionary of `route_compute_eta` (`app/agent/tools.py`):
keys `eta_min`, `distance_km`, `source`. -/
structure EtaOut where
  eta_min : ℚ
  distance_km : ℚ
  source : String
deriving DecidableEq, Repr

/-- The `try` body of `route_compute_eta` (`app/agent/tools.py`,
line 26): `route_eta_minutes(origin_lat, origin_lon, dest_lat, dest_lon)`
passes four positional arguments, but `route_eta_minutes` takes exactly
two parameters (`origin` and `dest` tuples), so the call raises
`TypeError` before the callee's body runs — unconditionally. -/
def routeComputeEtaTry : Except String ℚ :=
  .error "TypeError: route_eta_minutes() takes 2 positional arguments but 4 were given"

/-- `route_compute_eta(...)` (`app/agent/tools.py`, lines 22-38) as a
function of the haversine distance `d`: the `try` block always raises
(`routeComputeEtaTry`), the bare `except` swallows the `TypeError`, and
the fallback returns `eta_min = dist * 2` (the `# Simple estimate:
30 km/h average` line) with `source = "haversine"`. -/
def route_compute_eta (d : ℚ) (hour : ℕ) : EtaOut :=
  match routeComputeEtaTry with
  | .ok v => ⟨v, d, "osrm"⟩
  | .error _ => ⟨d * 2, d, "haversine"⟩

/-! ### Reservation policy (`app/agent/tools.py`, `policy_decide_reserve`,
lines 107-156)

The candidate dictionaries carry exactly the validated required fields
`station_id`, `p50_wait`, `p90_wait`, `free`, `trust_badge` (the Python
field-presence validation cannot fail on this structure).  The in-place
`station["expected_start"] = eta_min + station["p50_wait"]` mutation is a
cache of a value derived from fields that never change afterwards, so
`expected_start` is recomputed on demand here. -/

/-- A policy candidate dictionary. -/
structure PCand where
  station_id : String
  p50_wait : ℚ
  p90_wait : ℚ
  free : ℤ
  trust_badge : PyVal
deriving DecidableEq, Repr

/-- The returned decision dictionary: `decision`, `reason`,
`target` (modelled by the `station_id` it wraps, since the code returns
`{"station_id": target["station_id"]}`), `promised_start_min`. -/
structure PDecision where
  decision : String
  reason : String
  target : Option String
  promised_start_min : Option ℤ
deriving DecidableEq, Repr

/-- `{"A":1, "B":2, "C":3, "D":4}[s["trust_badge"]]` (line 122): a plain
subscript with no default, so an unknown key — in particular a
`Connector` record in badge position — raises `KeyError`, modelled by
`none`. -/
def badgeRank (b : PyVal) : Option ℕ :=
  match b with
  | .str "A" => some 1
  | .str "B" => some 2
  | .str "C" => some 3
  | .str "D" => some 4
  | _ => none

/-- Computing the sort key of every candidate: the `candidates.sort(...)`
call evaluates the key function on each element, and the first unknown
badge aborts the sort with `KeyError` (`none`). -/
def policyRanked : List PCand → Option (List (PCand × ℕ))
  | [] => some []
  | c :: cs =>
    match badgeRank c.trust_badge, policyRanked cs with
    | some r, some rest => some ((c, r) :: rest)
    | _, _ => none

/-- The Python sort key `(s["expected_start"], rank)` with
`expected_start = eta_min + p50_wait`. -/
def candKey (eta_min : ℚ) (cr : PCand × ℕ) : ℚ × ℕ :=
  (eta_min + cr.1.p50_wait, cr.2)

/-- Python tuple comparison `(a1, a2) <= (b1, b2)`: lexicographic. -/
def keyLE (a b : ℚ × ℕ) : Prop :=
  a.1 < b.1 ∨ (a.1 = b.1 ∧ a.2 ≤ b.2)

instance (a b : ℚ × ℕ) : Decidable (keyLE a b) := by
  unfold keyLE; exact inferInstance

/-- `candidates.sort(key=...)` (lines 121-123): Python `list.sort` is a
stable ascending sort by key, modelled by insertion sort (stable for a
total `≤`-style relation). -/
def policySorted (eta_min : ℚ) (rc : List (PCand × ℕ)) : List (PCand × ℕ) :=
  List.insertionSort (fun a b => keyLE (candKey eta_min a) (candKey eta_min b)) rc

/-- `target = candidates[0] if candidates else None` (line 131), on the
sorted list. -/
def policyTarget (eta_min : ℚ) (rc : List (PCand × ℕ)) : Option PCand :=
  ((policySorted eta_min rc).head?).map Prod.fst

/-- `any_free = any(s["free"] > 0 for s in candidates)` (line 116). -/
def anyFree (cands : List PCand) : Bool :=
  cands.any fun c => 0 < c.free

/-- The `base_risk` value after lines 126-136: starts at `0.2`, raised to
`max(0.2, 0.8)` when `soc < 10`; then, if a target exists, set to `1.0`
when its expected start exceeds 25, else raised to `max(., 0.5)` when it
exceeds 10. -/
def baseRisk (soc eta_min : ℚ) (target : Option PCand) : ℚ :=
  let risk0 : ℚ := if soc < 10 then max (2/10) (8/10) else 2/10
  match target with
  | none => risk0
  | some t =>
    if 25 < eta_min + t.p50_wait then 1
    else if 10 < eta_min + t.p50_wait then max risk0 (5/10)
    else risk0

/-- Python `int(x)` on a float: truncation toward zero. -/
def pyInt (q : ℚ) : ℤ := if 0 ≤ q then ⌊q⌋ else -⌊-q⌋

/-- `policy_decide_reserve(soc, eta_min, candidates)`
(`app/agent/tools.py`, lines 107-156).  `none` models the `KeyError`
raised while sorting when some candidate's `trust_badge` is not one of
the strings `"A"`/`"B"`/`"C"`/`"D"`.  Otherwise:
`should_reserve = base_risk >= 0.7 or not any_free`; decision `"NO"`
(with null target and promised start) when `not should_reserve or not
target`, else `"YES"` with the target's `station_id` and
`promised_start_min = int(target["expected_start"])`. -/
def policy_decide_reserve (soc eta_min : ℚ) (cands : List PCand) :
    Option PDecision :=
  match policyRanked cands with
  | none => none
  | some rc =>
    let target := policyTarget eta_min rc
    let risk := baseRisk soc eta_min target
    let should_reserve : Bool := decide ((7:ℚ)/10 ≤ risk) || !anyFree cands
    some <|
      if !should_reserve || target.isNone then
        { decision := "NO"
          reason := if !should_reserve then "Risk level acceptable" else "No valid targets"
          target := none
          promised_start_min := none }
      else
        { decision := "YES"
          reason := if (7:ℚ)/10 ≤ risk then "Risk mitigation required" else "No free spots"
          target := target.map PCand.station_id
          promised_start_min := target.map fun t => pyInt (eta_min + t.p50_wait) }

/-! ### Summaries (`app/agent/graph.py` `summarize_node`,
`app/agent/planner.py` `summarize_with_llm`)

Strings are modelled as `List Char` so that slicing and length have the
simple list theory; `s[:140]` is `List.take 140`.  Interpolated numbers
(`f"... {station['p50_wait']} ..."`) are rendered by an explicit
rendering function `showQ : ℚ → List Char` passed as a parameter —
Python's float-to-string conversion is not modelled, only that some
rendering is spliced in. -/

/-- The candidate-dictionary fields `summarize_node` reads. -/
structure SCand where
  station_id : String
  name : List Char
  p50_wait : ℚ
  p90_wait : ℚ
  color_band : String
deriving DecidableEq, Repr

/-- The slice of the pipeline state `summarize_node` reads:
`input.soc`, `eta.eta_min`, `candidates`, and the decision
(`decision == "YES"`, `reason`, `target.station_id`).  `targetId` is only
dereferenced when the decision is `"YES"` (Python's conditional
expression evaluates lazily). -/
structure SumState where
  soc : ℚ
  eta_min : ℚ
  candidates : List SCand
  decisionYes : Bool
  decisionReason : List Char
  targetId : String
deriving DecidableEq, Repr

/-- The station selection of `summarize_node` (graph.py, lines 140-141):
on `"YES"`, `next(s for s in candidates if s["station_id"] ==
decision.target.station_id)` (raises `StopIteration` when absent,
modelled `none`); otherwise `candidates[0]` (raises `IndexError` on an
empty list, modelled `none`). -/
def pickStation (st : SumState) : Option SCand :=
  if st.decisionYes then st.candidates.find? (fun s => s.station_id = st.targetId)
  else st.candidates.head?

/-- The driver message f-string (graph.py, lines 143-147):
`"Reserved {name}, start in {p50}-{p90}min ({band})"` on `"YES"`, else
`"Try {name}, likely {p50}-{p90}min wait ({band})"`. -/
def driverMsg (yes : Bool) (s : SCand) (showQ : ℚ → List Char) : List Char :=
  if yes then
    "Reserved ".data ++ s.name ++ ", start in ".data ++ showQ s.p50_wait
      ++ "-".data ++ showQ s.p90_wait ++ "min (".data ++ s.color_band.data ++ ")".data
  else
    "Try ".data ++ s.name ++ ", likely ".data ++ showQ s.p50_wait
      ++ "-".data ++ showQ s.p90_wait ++ "min wait (".data ++ s.color_band.data ++ ")".data

/-- The operator message f-string (graph.py, lines 149-151):
`"SOC {soc}%, ETA {eta}min, P50 wait {p50}min. {reason}"`. -/
def operatorMsg (st : SumState) (s : SCand) (showQ : ℚ → List Char) : List Char :=
  "SOC ".data ++ showQ st.soc ++ "%, ETA ".data ++ showQ st.eta_min
    ++ "min, P50 wait ".data ++ showQ s.p50_wait ++ "min. ".data ++ st.decisionReason

/-- `summarize_node` (graph.py, lines 137-158): pick the station, then
store the two messages each truncated with `[:140]`.  `none` models the
exception the station selection raises (empty candidate list on `"NO"`,
or a `"YES"` target absent from the candidates). -/
def summarize_node (st : SumState) (showQ : ℚ → List Char) :
    Option (List Char × List Char) :=
  (pickStation st).map fun s =>
    ((driverMsg st.decisionYes s showQ).take 140, (operatorMsg st s showQ).take 140)

/-- `summarize_with_llm` (planner.py, lines 59-70).  The language-model
call is abstracted as its outcome: `.ok lines` is the response content
split on newlines (Python `str.split` always yields at least one
element), `.error` is any raised exception (missing backend, timeout,
malformed response).  On success: `summaries[0][:140]` and
`summaries[1][:140] if len(summaries) > 1 else ""`.  On any error the
`except:` branch re-runs the deterministic `summarize_node` — whose own
exception, if any, propagates (it is outside the `try`). -/
def summarize_with_llm (llmOutcome : Except Unit (List (List Char)))
    (st : SumState) (showQ : ℚ → List Char) : Option (List Char × List Char) :=
  match llmOutcome with
  | .ok lines => some ((lines.headD []).take 140, ((lines.drop 1).headD []).take 140)
  | .error _ => summarize_node st showQ

/-! ### Plan assembly and validation (`app/agent/graph.py`
`build_plan_node`/`validate_node`, `app/schema.py` `Plan`)

Only field *presence* is modelled: each assembled dictionary is
represented by the list of keys it carries, and the schema check below is
the necessary field-presence condition of `Plan.model_validate` — a
pydantic model with a required (no-default) field rejects any input
dictionary missing that key. -/

/-- Keys of each entry of `steps` assembled by `build_plan_node`
(graph.py, lines 163-172): always `{"tool": ..., "result": ...}`. -/
def builtStepFields : List String := ["tool", "result"]

/-- Keys of the `RESERVE` action dictionary (graph.py, lines 177-182). -/
def builtReserveActionFields : List String :=
  ["type", "station_id", "reservation_id", "promised_start_min"]

/-- Keys of the `NONE` action dictionary (graph.py, lines 184-187). -/
def builtNoneActionFields : List String := ["type", "reason"]

/-- The `steps` list assembled by `build_plan_node`: three entries
(route, predict, policy), plus a fourth (`ocpp_reserve_now`) when the
decision is `"YES"`; every entry has keys `tool` and `result` only. -/
def builtSteps (decisionYes : Bool) : List (List String) :=
  [builtStepFields, builtStepFields, builtStepFields]
    ++ (if decisionYes then [builtStepFields] else [])

/-- The `actions` list assembled by `build_plan_node`: a single
`RESERVE` dictionary when the decision is `"YES"`, else a single `NONE`
dictionary. -/
def builtActions (decisionYes : Bool) : List (List String) :=
  if decisionYes then [builtReserveActionFields] else [builtNoneActionFields]

/-- Required fields of `PlanStep` (`app/schema.py`, lines 59-62): `tool`,
`args` and `result` all have no default. -/
def planStepRequired : List String := ["tool", "args", "result"]

/-- Required fields of `PlanAction` (`app/schema.py`, lines 52-57):
`type` and `reason` have no default (`station_id`, `connector_id`,
`promised_start_min` default to `None`). -/
def planActionRequired : List String := ["type", "reason"]

/-- A dictionary (represented by its key list) carries every required
field. -/
def hasRequired (required fields : List String) : Bool :=
  required.all fields.contains

/-- The field-presence part of `validate_node`'s
`Plan.model_validate(state["plan"])` (graph.py, lines 204-208) on the
`steps` and `actions` entries: pydantic accepts the plan only if every
step has all `PlanStep` required fields and every action has all
`PlanAction` required fields.  (This is a necessary condition for
validation to succeed; the real validator checks more.) -/
def validateAssembledPlan (decisionYes : Bool) : Bool :=
  (builtSteps decisionYes).all (hasRequired planStepRequired)
    && (builtActions decisionYes).all (hasRequired planActionRequired)

/-! ### Reservation executor (`app/agent/tools.py` `ocpp_reserve_now`,
lines 158-227)

The persistence layer is modelled as an explicit value: station ids,
connector rows, reservation rows, intervention rows.  A run returns the
post-state of the store together with the result; exceptions are
`.error`.  In the source, both failure paths (`"Station not found"`,
no available connector) raise before any mutation, and the three
mutations (connector status flip, reservation row, intervention row) are
followed by a single `db.commit()`; an aborted session (closed by the
`finally` without commit) persists nothing. -/

/-- A connector row as the executor uses it. -/
structure DbConnector where
  connector_id : String
  station_id : String
  status : String
deriving DecidableEq, Repr

/-- The reservation row the executor creates (tools.py, lines 195-201):
`expires_minutes` is the offset `max(15, promised_start_min + 10)` of
`expires_at` from `datetime.now`. -/
structure DbReservation where
  reservation_id : String
  connector_id : String
  user_id : String
  state : String
  expires_minutes : ℤ
deriving DecidableEq, Repr

/-- The audit intervention row (tools.py, lines 207-214). -/
structure DbIntervention where
  action : String
  reason : String
  station_id : String
  connector_id : String
  promised_start : ℤ
deriving DecidableEq, Repr

/-- The persistence store visible to the executor. -/
structure Db where
  stations : List String
  connectors : List DbConnector
  reservations : List DbReservation
  interventions : List DbIntervention
deriving DecidableEq, Repr

/-- The dictionary `ocpp_reserve_now` returns on success. -/
structure OcppResult where
  reservation_id : String
  promised_start_min : ℤ
  connector_id : String
deriving DecidableEq, Repr

/-- The connector lookup (tools.py, lines 174-187): with an explicit
`connector_id`, the first connector with that id and status
`available` (the query does not constrain the station); otherwise the
first `available` connector of the station. -/
def findConnector (db : Db) (station_id : String)
    (connector_id : Option String) : Option DbConnector :=
  match connector_id with
  | some cid =>
      db.connectors.find? fun c => c.connector_id = cid && c.status = "available"
  | none =>
      db.connectors.find? fun c => c.station_id = station_id && c.status = "available"

/-- `ocpp_reserve_now(station_id, connector_id, promised_start_min,
eta_min, user_id)` (tools.py, lines 158-227).  `newUuid` stands for the
generated `uuid.uuid4()` string.  Returns the post-commit store and the
result; on either failure path the store is returned unchanged (the
`ValueError` is raised before any mutation, and the session is closed
without commit). -/
def ocpp_reserve_now (db : Db) (station_id : String)
    (connector_id : Option String) (promised_start_min eta_min : ℤ)
    (user_id : String) (newUuid : String) : Db × Except String OcppResult :=
  if station_id ∈ db.stations then
    match findConnector db station_id connector_id with
    | none =>
      (db, .error (if connector_id.isSome then "Specified connector not available"
                   else "No available connectors at station"))
    | some c =>
      let expires : ℤ := max 15 (promised_start_min + 10)
      let resv : DbReservation :=
        ⟨newUuid, c.connector_id, user_id, "active", expires⟩
      let interv : DbIntervention :=
        ⟨"RESERVE", "policy_decision", station_id, c.connector_id, promised_start_min⟩
      let db' : Db :=
        { db with
          connectors := db.connectors.map fun x =>
            if x.connector_id = c.connector_id then { x with status := "reserved" } else x
          reservations := db.reservations ++ [resv]
          interventions := db.interventions ++ [interv] }
      (db', .ok ⟨newUuid, promised_start_min, c.connector_id⟩)
  else
    (db, .error "Station not found")

/-! ### Candidate construction in the pipeline (`app/agent/graph.py`
`predict_node`, lines 66-100) -/

/-- The station metadata `station_search_nearby` contributes to a
candidate (graph.py merges `{**station, **prediction, ...}`). -/
structure StationMeta where
  station_id : String
  name : List Char
  distance_km : ℚ
deriving DecidableEq, Repr

/-- The candidate dictionary `predict_node` builds from a station and
its prediction: the merged keys plus `expected_start_min = eta_min +
p50_wait` and `color_band = band_from_minutes(expected_start)` (graph.py,
lines 86-95).  The prediction's keys overwrite the station's on overlap
(`station_id` is identical in both). -/
structure Candidate where
  station_id : String
  name : List Char
  distance_km : ℚ
  p50_wait : ℚ
  p90_wait : ℚ
  free : ℤ
  trust_badge : PyVal
  expected_start_min : ℚ
  color_band : String
deriving DecidableEq, Repr

/-- Builds one candidate from the pieces `predict_node` merges. -/
def mkCandidate (eta_min : ℚ) (meta : StationMeta) (p : PredOut) : Candidate :=
  { station_id := p.station_id
    name := meta.name
    distance_km := meta.distance_km
    p50_wait := p.p50_wait
    p90_wait := p.p90_wait
    free := p.free
    trust_badge := p.trust_badge
    expected_start_min := eta_min + p.p50_wait
    color_band := band_from_minutes (eta_min + p.p50_wait) none }

/-! ## Theorems -/

/-- The default configuration string parses to the thresholds (10, 25). -/
theorem parseBands_default : parseBands COLOR_BANDS = some (10, 25) := by decide

/-- C10: with the default configuration the color band of an expected
start is green when it is at most 10, amber when at most 25, else red —
in particular 10 ↦ green, 25 ↦ amber, 26 ↦ red — and on any band string
that fails to parse, `band_from_minutes` falls back to exactly that
default mapping instead of failing. -/
theorem C10_color_band :
    (∀ m : ℚ, band_from_minutes m none =
      (if m ≤ 10 then "green" else if m ≤ 25 then "amber" else "red")) ∧
    band_from_minutes 10 none = "green" ∧
    band_from_minutes 25 none = "amber" ∧
    band_from_minutes 26 none = "red" ∧
    (∀ (m : ℚ) (s : List Char), parseBands s = none →
      band_from_minutes m (some s) =
        (if m ≤ 10 then "green" else if m ≤ 25 then "amber" else "red")) := by
  refine ⟨?_, ?_, ?_, ?_, ?_⟩
  · intro m
    simp [band_from_minutes, parseBands_default]
  · norm_num [band_from_minutes, parseBands_default]
  · norm_num [band_from_minutes, parseBands_default]
  · norm_num [band_from_minutes, parseBands_default]
  · intro m s h
    simp [band_from_minutes, h]

/-- C10 witness: the malformed band string `"oops"` does not parse, and
the fallback classifies 7 as green. -/
theorem C10_color_band_witness :
    parseBands "oops".data = none ∧
    band_from_minutes 7 (some "oops".data) =
      (if (7:ℚ) ≤ 10 then "green" else if (7:ℚ) ≤ 25 then "amber" else "red") := by
  refine ⟨by decide, C10_color_band.2.2.2.2 7 "oops".data (by decide)⟩

/-- C2: the pipeline's Route stage (`route_compute_eta`) always returns
`eta_min = distance * 2` with source `"haversine"`, because its call to
`route_eta_minutes` raises `TypeError` (four positional arguments against
a two-parameter signature) which the bare `except` swallows.  At distance
10 km off-peak (hour 12) the stage yields 20 minutes, while the
speed-based formula the claim describes (`route_eta_minutes`, urban speed
25 km/h, no peak multiplier) yields 24 minutes. -/
theorem C2_route_stage_flat_eta :
    (∀ (d : ℚ) (hour : ℕ), route_compute_eta d hour = ⟨d * 2, d, "haversine"⟩) ∧
    route_compute_eta 10 12 = ⟨20, 10, "haversine"⟩ ∧
    route_eta_minutes 10 12 = 24 ∧
    (route_compute_eta 10 12).eta_min ≠ route_eta_minutes 10 12 := by
  refine ⟨fun d hour => rfl, by norm_num [route_compute_eta, routeComputeEtaTry], ?_, ?_⟩
  · norm_num [route_eta_minutes, eta_minutes_from_speed, isPeakHour,
      DEFAULT_URBAN_KMPH, DEFAULT_HIGHWAY_KMPH]
  · norm_num [route_compute_eta, routeComputeEtaTry, route_eta_minutes,
      eta_minutes_from_speed, isPeakHour, DEFAULT_URBAN_KMPH, DEFAULT_HIGHWAY_KMPH]

/-- C7 counterexample: on a station with an empty connector list the
agent-pipeline `station_predict` does not report zero waits — it raises
`ValueError` (Python `max` over the empty connector sequence inside
`station_trust_badge`), so the claim's "does not fail" is false on the
cited `app/agent/tools.py` implementation. -/
theorem C7_counterexample :
    agent_station_predict "ST-1" [] =
      .error "ValueError: max() arg is an empty sequence" := rfl

/-- C7 amended: on an empty connector list, `predict_wait`
(`app/tools/station.py`) returns zero p50/p90 waits, `free = 0` and
badge `"D"` without failing (via its early return); the agent-pipeline
`station_predict` instead computes `avg_session_min` as the DC default 28
but then raises `ValueError` when it takes the worst badge of the empty
connector list. -/
theorem C7_empty_connectors :
    (∀ sid : String, predict_wait sid [] = .ok ⟨sid, 0, 0, 0, .str "D"⟩) ∧
    agentAvgSession 0 0 = AVG_SESSION_MIN_DC ∧
    (∀ sid : String, agent_station_predict sid [] =
      .error "ValueError: max() arg is an empty sequence") := by
  exact ⟨fun sid => rfl, rfl, fun sid => rfl⟩

/-- C4: every `steps` entry assembled by `build_plan_node` lacks the
`args` field that the `PlanStep` schema requires; the `RESERVE` action
assembled on a YES decision lacks the `reason` field that `PlanAction`
requires; consequently the field-presence check of
`Plan.model_validate` fails for every assembled plan (YES or NO), so
`validate_node` raises on every run that reaches it. -/
theorem C4_plan_never_validates :
    (∀ decisionYes : Bool,
      (builtSteps decisionYes).all (fun s => !s.contains "args") = true) ∧
    (builtActions true).all (fun a => !a.contains "reason") = true ∧
    (∀ decisionYes : Bool, validateAssembledPlan decisionYes = false) := by
  decide

/-- C9: the reservation executor's three persistence effects are
all-or-nothing.  If the run fails (station not found, or no available
connector), the store is returned unchanged — none of the connector
status flip, the reservation row, or the intervention row is persisted.
If the run succeeds, all three are applied together: the chosen
connector's status becomes `reserved`, a reservation row with expiry
offset `max(15, promised_start_min + 10)` minutes is appended, and the
`RESERVE`/`policy_decision` intervention row is appended. -/
theorem C9_reserve_atomic (db : Db) (sid : String) (cid : Option String)
    (promised eta_min : ℤ) (user newUuid : String) :
    (∀ e, (ocpp_reserve_now db sid cid promised eta_min user newUuid).2 = .error e →
      (ocpp_reserve_now db sid cid promised eta_min user newUuid).1 = db) ∧
    (∀ r, (ocpp_reserve_now db sid cid promised eta_min user newUuid).2 = .ok r →
      ∃ c, findConnector db sid cid = some c ∧
        r = ⟨newUuid, promised, c.connector_id⟩ ∧
        (ocpp_reserve_now db sid cid promised eta_min user newUuid).1 =
          { db with
            connectors := db.connectors.map fun x =>
              if x.connector_id = c.connector_id then { x with status := "reserved" } else x
            reservations := db.reservations ++
              [⟨newUuid, c.connector_id, user, "active", max 15 (promised + 10)⟩]
            interventions := db.interventions ++
              [⟨"RESERVE", "policy_decision", sid, c.connector_id, promised⟩] }) := by
  by_cases hs : sid ∈ db.stations
  · cases hfc : findConnector db sid cid with
    | none =>
      refine ⟨fun e _ => by simp [ocpp_reserve_now, hs, hfc], fun r hr => ?_⟩
      exfalso
      simp [ocpp_reserve_now, hs, hfc] at hr
    | some c =>
      refine ⟨fun e he => ?_, fun r hr => ?_⟩
      · exfalso
        simp [ocpp_reserve_now, hs, hfc] at he
      · simp only [ocpp_reserve_now, hs, if_true, hfc] at hr ⊢
        refine ⟨c, rfl, ?_, ?_⟩
        · simpa [eq_comm] using hr
        · simp
  · refine ⟨fun e _ => by simp [ocpp_reserve_now, hs], fun r hr => ?_⟩
    exfalso
    simp [ocpp_reserve_now, hs] at hr

/-- C9 witness: on an empty store the executor fails with "Station not
found" and persists nothing; on a store with one available connector it
succeeds and persists all three effects. -/
theorem C9_reserve_atomic_witness :
    ((ocpp_reserve_now ⟨[], [], [], []⟩ "ST-9" none 5 3 "u1" "res-1").1 =
      (⟨[], [], [], []⟩ : Db)) ∧
    ((ocpp_reserve_now ⟨["ST-9"], [⟨"c1", "ST-9", "available"⟩], [], []⟩
        "ST-9" none 5 3 "u1" "res-1").1 =
      ⟨["ST-9"], [⟨"c1", "ST-9", "reserved"⟩],
        [⟨"res-1", "c1", "u1", "active", 15⟩],
        [⟨"RESERVE", "policy_decision", "ST-9", "c1", 5⟩]⟩) := by
  constructor
  · exact (C9_reserve_atomic ⟨[], [], [], []⟩ "ST-9" none 5 3 "u1" "res-1").1
      "Station not found" rfl
  · obtain ⟨c, hc, hr, hdb⟩ :=
      (C9_reserve_atomic ⟨["ST-9"], [⟨"c1", "ST-9", "available"⟩], [], []⟩
        "ST-9" none 5 3 "u1" "res-1").2 ⟨"res-1", 5, "c1"⟩ rfl
    have hc2 : c = ⟨"c1", "ST-9", "available"⟩ := by
      have h0 : (some (⟨"c1", "ST-9", "available"⟩ : DbConnector)) = some c := by
        rw [← hc]; rfl
      exact (Option.some_inj.mp h0).symm
    subst hc2
    rw [hdb]
    norm_num

/-- C6: every prediction the Station Predictor (`predict_wait`,
`app/tools/station.py`) produces satisfies `p90_wait = 1.6 * p50_wait`
exactly, and the candidate construction of the pipeline's Predict stage
(`mkCandidate`) carries the prediction's `p50_wait`/`p90_wait` through
unchanged, so every `StationCandidate` built from such a prediction
satisfies the same relation. -/
theorem C6_p90_is_1_6_p50 :
    (∀ (sid : String) (cs : List Connector) (p : PredOut),
        predict_wait sid cs = .ok p → p.p90_wait = (16/10) * p.p50_wait) ∧
    (∀ (eta_min : ℚ) (meta : StationMeta) (p : PredOut),
        p.p90_wait = (16/10) * p.p50_wait →
        (mkCandidate eta_min meta p).p90_wait =
          (16/10) * (mkCandidate eta_min meta p).p50_wait) := by
  constructor
  · intro sid cs p h
    cases cs with
    | nil =>
      simp only [predict_wait, Except.ok.injEq] at h
      subst h
      norm_num
    | cons c rest =>
      simp only [predict_wait, List.map_cons, station_trust_badge,
        Except.ok.injEq] at h
      subst h
      rfl
  · intro eta_min meta p h
    simpa [mkCandidate] using h

/-- C6 witness: a station with one charging DC connector of badge B gets
p50 = 28 and p90 = 224/5 = 1.6 × 28, and the candidate built from that
prediction keeps the ratio. -/
theorem C6_p90_is_1_6_p50_witness :
    predict_wait "S" [⟨"c1", "S", "DC", "charging", "B"⟩] =
      .ok ⟨"S", 28, 224/5, 0, .str "B"⟩ ∧
    (224/5 : ℚ) = (16/10) * 28 ∧
    (mkCandidate 5 ⟨"S", "Alpha".data, 2⟩ ⟨"S", 28, 224/5, 0, .str "B"⟩).p90_wait =
      (16/10) *
        (mkCandidate 5 ⟨"S", "Alpha".data, 2⟩ ⟨"S", 28, 224/5, 0, .str "B"⟩).p50_wait := by
  have hpred : predict_wait "S" [⟨"c1", "S", "DC", "charging", "B"⟩] =
      .ok ⟨"S", 28, 224/5, 0, .str "B"⟩ := by
    with_unfolding_all rfl
  refine ⟨hpred, ?_, C6_p90_is_1_6_p50.2 5 ⟨"S", "Alpha".data, 2⟩ _
    (C6_p90_is_1_6_p50.1 "S" _ _ hpred)⟩
  simpa using C6_p90_is_1_6_p50.1 "S" _ _ hpred

/-- C8 counterexample: a pipeline state with an empty candidate list and
decision NO reaches `summarize_node` through the language-model error
fallback, and the stage raises (`candidates[0]` on an empty list) instead
of producing summaries — the error does surface. -/
theorem C8_counterexample :
    summarize_with_llm (.error ()) ⟨50, 10, [], false, "No valid targets".data, ""⟩
      (fun _ => "0".data) = none := rfl

/-- C8 amended: whenever the language-model summarizer errors and the
deterministic station selection succeeds (non-empty candidates on NO, or
the YES target present among the candidates), the Summarize stage
surfaces no error and returns exactly the deterministic driver and
operator formulas truncated to 140 characters; both are non-empty and at
most 140 characters long. -/
theorem C8_summarize_fallback (st : SumState) (showQ : ℚ → List Char)
    (s : SCand) (hpick : pickStation st = some s) :
    summarize_with_llm (.error ()) st showQ =
      some ((driverMsg st.decisionYes s showQ).take 140,
            (operatorMsg st s showQ).take 140) ∧
    (driverMsg st.decisionYes s showQ).take 140 ≠ [] ∧
    (operatorMsg st s showQ).take 140 ≠ [] ∧
    ((driverMsg st.decisionYes s showQ).take 140).length ≤ 140 ∧
    ((operatorMsg st s showQ).take 140).length ≤ 140 := by
  refine ⟨by simp [summarize_with_llm, summarize_node, hpick],
    ?_, ?_, List.length_take_le 140 _, List.length_take_le 140 _⟩
  · cases hy : st.decisionYes <;> simp [driverMsg, hy]
  · simp [operatorMsg]

/-- C8 witness: a concrete NO-decision state with one candidate gets the
deterministic fallback summaries. -/
theorem C8_summarize_fallback_witness :
    summarize_with_llm (.error ())
        ⟨80, 5, [⟨"S1", "Alpha".data, 3, 24/5, "green"⟩], false,
          "Risk level acceptable".data, ""⟩ (fun _ => "3".data) =
      some ((driverMsg false ⟨"S1", "Alpha".data, 3, 24/5, "green"⟩
              (fun _ => "3".data)).take 140,
            (operatorMsg
              ⟨80, 5, [⟨"S1", "Alpha".data, 3, 24/5, "green"⟩], false,
                "Risk level acceptable".data, ""⟩
              ⟨"S1", "Alpha".data, 3, 24/5, "green"⟩ (fun _ => "3".data)).take 140) ∧
    (driverMsg false ⟨"S1", "Alpha".data, 3, 24/5, "green"⟩
        (fun _ => "3".data)).take 140 ≠ [] := by
  have h := C8_summarize_fallback
    ⟨80, 5, [⟨"S1", "Alpha".data, 3, 24/5, "green"⟩], false,
      "Risk level acceptable".data, ""⟩ (fun _ => "3".data)
    ⟨"S1", "Alpha".data, 3, 24/5, "green"⟩ rfl
  exact ⟨h.1, h.2.1⟩

/-- The first-maximum fold of `station_trust_badge` always returns an
element of the scanned list. -/
theorem foldl_pick_mem (bs : List PyVal) (b : PyVal) :
    bs.foldl (fun best x => if badgeOrderGet best < badgeOrderGet x then x else best) b
      ∈ b :: bs := by
  induction bs generalizing b with
  | nil => simp [List.foldl]
  | cons x xs ih =>
    simp only [List.foldl_cons]
    rcases List.mem_cons.mp (ih (if badgeOrderGet b < badgeOrderGet x then x else b)) with h | h
    · rw [h]
      by_cases hbx : badgeOrderGet b < badgeOrderGet x
      · simp [hbx]
      · simp [hbx]
    · simp [h]

/-- If some candidate's badge has no rank, computing the sort keys
raises `KeyError` (`policyRanked` is `none`). -/
theorem policyRanked_none {cands : List PCand} {c : PCand}
    (hc : c ∈ cands) (hb : badgeRank c.trust_badge = none) :
    policyRanked cands = none := by
  induction cands with
  | nil => cases hc
  | cons x xs ih =>
    rcases List.mem_cons.mp hc with h | h
    · subst h
      simp [policyRanked, hb]
    · have hxs := ih h
      simp only [policyRanked, hxs]
      cases badgeRank x.trust_badge <;> rfl

/-- C5 counterexample: with one connector present, the agent-pipeline
`station_predict` does not return any prediction (let alone one whose
`trust_badge` is a non-letter): it raises `AttributeError` because it
reads `c.connector_type` while the `Connector` model defines `type`. -/
theorem C5_counterexample :
    agent_station_predict "ST-1" [⟨"c1", "ST-1", "DC", "available", "A"⟩] =
      .error "AttributeError: Connector object has no attribute connector_type" := rfl

/-- C5 amended: for every station with at least one connector the
agent-pipeline `station_predict` raises `AttributeError` (reading the
nonexistent `connector_type` attribute), so it never returns a
prediction and no candidate list is ever built from its output.  The
mechanism the claim describes does hold of the inner functions: passing
the connector records themselves to `station_trust_badge` yields a
connector record (never a letter), whose trust-factor lookup takes the D
default 1.5 and whose rank lookup in the policy tie-break has no entry,
so the policy raises `KeyError` on any candidate carrying such a badge. -/
theorem C5_badges_unreachable :
    (∀ (sid : String) (c : Connector) (cs : List Connector),
        agent_station_predict sid (c :: cs) =
          .error "AttributeError: Connector object has no attribute connector_type") ∧
    (∀ (c : Connector) (cs : List Connector) (b : PyVal),
        station_trust_badge ((c :: cs).map PyVal.conn) = .ok b →
        (∃ cc, b = PyVal.conn cc) ∧ TRUST_FACTOR_get b = 3/2 ∧ badgeRank b = none) ∧
    (∀ (soc eta_min : ℚ) (cands : List PCand) (c : PCand) (cc : Connector),
        c ∈ cands → c.trust_badge = PyVal.conn cc →
        policy_decide_reserve soc eta_min cands = none) := by
  refine ⟨fun sid c cs => rfl, ?_, ?_⟩
  · intro c cs b h
    have hmem : b ∈ (c :: cs).map PyVal.conn := by
      simp only [List.map_cons, station_trust_badge, Except.ok.injEq] at h
      subst h
      simpa using foldl_pick_mem (cs.map PyVal.conn) (PyVal.conn c)
    obtain ⟨cc, _, hb⟩ := List.mem_map.mp hmem
    exact ⟨⟨cc, hb.symm⟩, by rw [← hb]; rfl, by rw [← hb]; rfl⟩
  · intro soc eta_min cands c cc hc hbadge
    have hrank : badgeRank c.trust_badge = none := by rw [hbadge]; rfl
    simp [policy_decide_reserve, policyRanked_none hc hrank]

/-- C5 witness: the inner-function facts applied to a concrete connector
and a concrete candidate list. -/
theorem C5_badges_unreachable_witness :
    ((∃ cc, PyVal.conn ⟨"c1", "ST-1", "DC", "available", "A"⟩ = PyVal.conn cc) ∧
      TRUST_FACTOR_get (PyVal.conn ⟨"c1", "ST-1", "DC", "available", "A"⟩) = 3/2 ∧
      badgeRank (PyVal.conn ⟨"c1", "ST-1", "DC", "available", "A"⟩) = none) ∧
    policy_decide_reserve 50 5
      [⟨"s1", 1, 2, 0, PyVal.conn ⟨"c1", "ST-1", "DC", "available", "A"⟩⟩] = none := by
  constructor
  · exact C5_badges_unreachable.2.1 ⟨"c1", "ST-1", "DC", "available", "A"⟩ [] _ rfl
  · exact C5_badges_unreachable.2.2 50 5
      [⟨"s1", 1, 2, 0, PyVal.conn ⟨"c1", "ST-1", "DC", "available", "A"⟩⟩]
      ⟨"s1", 1, 2, 0, PyVal.conn ⟨"c1", "ST-1", "DC", "available", "A"⟩⟩
      ⟨"c1", "ST-1", "DC", "available", "A"⟩ (by simp) rfl

/-- C3: with two candidates of equal expected start (`eta_min +
p50_wait`) and badge ranks `r1 < r2` (A=1, B=2, C=3, D=4), the policy's
sort places the better-badge candidate first regardless of input order,
so it is the selected target; whenever the decision is YES, the returned
target is that candidate's `station_id`. -/
theorem C3_tiebreak (soc eta_min : ℚ) (c1 c2 : PCand) (r1 r2 : ℕ)
    (h1 : badgeRank c1.trust_badge = some r1)
    (h2 : badgeRank c2.trust_badge = some r2)
    (hlt : r1 < r2)
    (hes : eta_min + c1.p50_wait = eta_min + c2.p50_wait) :
    policyRanked [c1, c2] = some [(c1, r1), (c2, r2)] ∧
    policyRanked [c2, c1] = some [(c2, r2), (c1, r1)] ∧
    policyTarget eta_min [(c1, r1), (c2, r2)] = some c1 ∧
    policyTarget eta_min [(c2, r2), (c1, r1)] = some c1 ∧
    (∀ d, policy_decide_reserve soc eta_min [c1, c2] = some d →
        d.decision = "YES" → d.target = some c1.station_id) ∧
    (∀ d, policy_decide_reserve soc eta_min [c2, c1] = some d →
        d.decision = "YES" → d.target = some c1.station_id) := by
  have hr12 : policyRanked [c1, c2] = some [(c1, r1), (c2, r2)] := by
    simp [policyRanked, h1, h2]
  have hr21 : policyRanked [c2, c1] = some [(c2, r2), (c1, r1)] := by
    simp [policyRanked, h1, h2]
  have hts : keyLE (candKey eta_min (c1, r1)) (candKey eta_min (c2, r2)) :=
    Or.inr ⟨hes, hlt.le⟩
  have hnts : ¬ keyLE (candKey eta_min (c2, r2)) (candKey eta_min (c1, r1)) := by
    intro hcon
    rcases hcon with h' | ⟨_, hle⟩
    · have h'' : eta_min + c2.p50_wait < eta_min + c1.p50_wait := h'
      linarith
    · have hle' : r2 ≤ r1 := hle
      omega
  have hsort12 : policySorted eta_min [(c1, r1), (c2, r2)] = [(c1, r1), (c2, r2)] := by
    simp only [policySorted, List.insertionSort, List.orderedInsert]
    rw [if_pos hts]
  have hsort21 : policySorted eta_min [(c2, r2), (c1, r1)] = [(c1, r1), (c2, r2)] := by
    simp only [policySorted, List.insertionSort, List.orderedInsert]
    rw [if_neg hnts]
  have htar12 : policyTarget eta_min [(c1, r1), (c2, r2)] = some c1 := by
    simp [policyTarget, hsort12]
  have htar21 : policyTarget eta_min [(c2, r2), (c1, r1)] = some c1 := by
    simp [policyTarget, hsort21]
  refine ⟨hr12, hr21, htar12, htar21, ?_, ?_⟩
  · intro d hd hdec
    simp only [policy_decide_reserve, hr12, htar12, Option.some_inj] at hd
    split at hd
    · rw [← hd] at hdec
      simp at hdec
    · rw [← hd]
      rfl
  · intro d hd hdec
    simp only [policy_decide_reserve, hr21, htar21, Option.some_inj] at hd
    split at hd
    · rw [← hd] at hdec
      simp at hdec
    · rw [← hd]
      rfl

/-- C3 witness: the spec's Scenario C — two candidates with equal
expected start 32 and badges A versus B — selects the badge-A station
whichever order the candidates arrive in. -/
theorem C3_tiebreak_witness :
    policy_decide_reserve 50 2
      [⟨"sB", 30, 48, 0, .str "B"⟩, ⟨"sA", 30, 48, 0, .str "A"⟩] =
      some ⟨"YES", "Risk mitigation required", some "sA", some 32⟩ ∧
    (⟨"YES", "Risk mitigation required", some "sA", some 32⟩ : PDecision).target =
      some (⟨"sA", 30, 48, 0, PyVal.str "A"⟩ : PCand).station_id := by
  have hd : policy_decide_reserve 50 2
      [⟨"sB", 30, 48, 0, .str "B"⟩, ⟨"sA", 30, 48, 0, .str "A"⟩] =
      some ⟨"YES", "Risk mitigation required", some "sA", some 32⟩ := by
    with_unfolding_all rfl
  refine ⟨hd, ?_⟩
  exact (C3_tiebreak 50 2 ⟨"sA", 30, 48, 0, .str "A"⟩ ⟨"sB", 30, 48, 0, .str "B"⟩
    1 2 rfl rfl (by omega) rfl).2.2.2.2.2 _ hd rfl

/-- Computing the sort keys preserves the number of candidates. -/
theorem policyRanked_length : ∀ {cands : List PCand} {rc : List (PCand × ℕ)},
    policyRanked cands = some rc → rc.length = cands.length := by
  intro cands
  induction cands with
  | nil =>
    intro rc h
    simp only [policyRanked, Option.some_inj] at h
    subst h
    rfl
  | cons x xs ih =>
    intro rc h
    rcases hbr : badgeRank x.trust_badge with _ | r
    · simp [policyRanked, hbr] at h
    · rcases hpr : policyRanked xs with _ | rest
      · simp [policyRanked, hbr, hpr] at h
      · simp only [policyRanked, hbr, hpr, Option.some_inj] at h
        subst h
        simp [ih hpr]

/-- Python `int()` agrees with the floor on non-negative values. -/
theorem pyInt_eq_floor {q : ℚ} (h : 0 ≤ q) : pyInt q = ⌊q⌋ := by
  simp [pyInt, h]

/-- C1 counterexample: at `soc = 50`, `eta_min = -1/2` and a single
candidate with `p50_wait = 0`, `free = 0`, badge A, the policy decides
YES with `promised_start_min = int(-1/2) = 0`, while the floor of the
expected start `-1/2` is `-1`: the claim's
`promised_start_min = floor(expected_start)` fails, because Python
`int()` truncates toward zero. -/
theorem C1_counterexample :
    policy_decide_reserve 50 (-1/2) [⟨"s1", 0, 0, 0, .str "A"⟩] =
      some ⟨"YES", "No free spots", some "s1", some 0⟩ ∧
    (⌊(-1/2 : ℚ) + (0 : ℚ)⌋ : ℤ) = -1 ∧ (0 : ℤ) ≠ -1 := by
  refine ⟨by with_unfolding_all rfl, by norm_num, by omega⟩

/-- C1 amended: whenever every candidate badge is rankable (so the sort
raises no `KeyError` and the ranked list is `rc`), the policy returns a
decision `d` with: `d.decision = YES` iff a best candidate exists (the
list is non-empty) and the computed base risk is at least 0.70 or no
candidate has free connectors; on YES the target is the best (sorted
first) candidate's `station_id` and `promised_start_min` is its expected
start truncated toward zero (`int()` — the floor whenever the expected
start is non-negative); on NO both are null. -/
theorem C1_policy_decision (soc eta_min : ℚ) (cands : List PCand)
    (rc : List (PCand × ℕ)) (hrc : policyRanked cands = some rc) :
    ∃ d, policy_decide_reserve soc eta_min cands = some d ∧
      (d.decision = "YES" ↔
        cands ≠ [] ∧
        ((7:ℚ)/10 ≤ baseRisk soc eta_min (policyTarget eta_min rc) ∨
          anyFree cands = false)) ∧
      (∀ t, policyTarget eta_min rc = some t → d.decision = "YES" →
        d.target = some t.station_id ∧
        d.promised_start_min = some (pyInt (eta_min + t.p50_wait))) ∧
      (d.decision = "NO" → d.target = none ∧ d.promised_start_min = none) ∧
      (d.decision = "YES" ∨ d.decision = "NO") := by
  rcases htar : policyTarget eta_min rc with _ | t0
  · -- no target: the candidate list must be empty
    have hsort_nil : policySorted eta_min rc = [] := by
      have h1 : (policySorted eta_min rc).head? = none := by
        simpa [policyTarget] using htar
      exact List.head?_eq_none_iff.mp h1
    have hrc_nil : rc = [] := by
      have hpl := (List.perm_insertionSort
        (fun a b => keyLE (candKey eta_min a) (candKey eta_min b)) rc).length_eq
      rw [show List.insertionSort _ rc = policySorted eta_min rc from rfl,
        hsort_nil] at hpl
      exact List.length_eq_zero.mp hpl.symm
    have hcands_nil : cands = [] := by
      have hl := policyRanked_length hrc
      rw [hrc_nil] at hl
      exact List.length_eq_zero.mp hl.symm
    subst hcands_nil
    subst hrc_nil
    refine ⟨⟨"NO", "No valid targets", none, none⟩, ?_, ?_, ?_, ?_, ?_⟩
    · simp [policy_decide_reserve, policyRanked, policyTarget, policySorted,
        List.insertionSort, anyFree]
    · simp
    · intro t ht
      exact Option.noConfusion ht
    · intro _
      exact ⟨rfl, rfl⟩
    · exact Or.inr rfl
  · -- a target exists
    have hnonnil : cands ≠ [] := by
      intro h
      subst h
      simp only [policyRanked, Option.some_inj] at hrc
      rw [← hrc] at htar
      simp [policyTarget, policySorted, List.insertionSort] at htar
    by_cases hrisk : (7:ℚ)/10 ≤ baseRisk soc eta_min (some t0)
    · -- high risk: YES
      refine ⟨⟨"YES",
        if (7:ℚ)/10 ≤ baseRisk soc eta_min (some t0) then
          "Risk mitigation required" else "No free spots",
        some t0.station_id, some (pyInt (eta_min + t0.p50_wait))⟩, ?_, ?_, ?_, ?_, ?_⟩
      · simp [policy_decide_reserve, hrc, htar, hrisk]
      · exact Iff.intro (fun _ => ⟨hnonnil, Or.inl hrisk⟩) (fun _ => rfl)
      · intro t ht _
        rw [Option.some_inj] at ht
        subst ht
        exact ⟨rfl, rfl⟩
      · intro h
        simp at h
      · exact Or.inl rfl
    · by_cases hfree : anyFree cands = true
      · -- low risk and a free connector somewhere: NO
        refine ⟨⟨"NO", "Risk level acceptable", none, none⟩, ?_, ?_, ?_, ?_, ?_⟩
        · simp [policy_decide_reserve, hrc, htar, hrisk, hfree]
        · constructor
          · intro h
            exact absurd h (by simp)
          · rintro ⟨-, hor | hor⟩
            · exact absurd hor hrisk
            · rw [hfree] at hor
              exact Bool.noConfusion hor
        · intro t ht hdec
          simp at hdec
        · intro _
          exact ⟨rfl, rfl⟩
        · exact Or.inr rfl
      · -- no free connector: YES
        have hfree' : anyFree cands = false := by
          simpa using hfree
        refine ⟨⟨"YES",
          if (7:ℚ)/10 ≤ baseRisk soc eta_min (some t0) then
            "Risk mitigation required" else "No free spots",
          some t0.station_id, some (pyInt (eta_min + t0.p50_wait))⟩, ?_, ?_, ?_, ?_, ?_⟩
        · simp [policy_decide_reserve, hrc, htar, hrisk, hfree']
        · exact Iff.intro (fun _ => ⟨hnonnil, Or.inr hfree'⟩) (fun _ => rfl)
        · intro t ht _
          rw [Option.some_inj] at ht
          subst ht
          exact ⟨rfl, rfl⟩
        · intro h
          simp at h
        · exact Or.inl rfl

/-- C1 witness: the spec's Scenario A — `soc = 5`, one candidate with
`p50 = 12` and no free connectors, `eta = 8` — yields YES with promised
start 20. -/
theorem C1_policy_decision_witness :
    ∃ d, policy_decide_reserve 5 8 [⟨"s1", 12, 96/5, 0, .str "B"⟩] = some d ∧
      (d.decision = "YES" ↔
        [(⟨"s1", 12, 96/5, 0, .str "B"⟩ : PCand)] ≠ [] ∧
        ((7:ℚ)/10 ≤ baseRisk 5 8
            (policyTarget 8 [(⟨"s1", 12, 96/5, 0, .str "B"⟩, 2)]) ∨
          anyFree [⟨"s1", 12, 96/5, 0, .str "B"⟩] = false)) ∧
      (∀ t, policyTarget 8 [(⟨"s1", 12, 96/5, 0, .str "B"⟩, 2)] = some t →
        d.decision = "YES" →
        d.target = some t.station_id ∧
        d.promised_start_min = some (pyInt (8 + t.p50_wait))) ∧
      (d.decision = "NO" → d.target = none ∧ d.promised_start_min = none) ∧
      (d.decision = "YES" ∨ d.decision = "NO") := by
  exact C1_policy_decision 5 8 [⟨"s1", 12, 96/5, 0, .str "B"⟩]
    [(⟨"s1", 12, 96/5, 0, .str "B"⟩, 2)] (by with_unfolding_all rfl)

end EVGuardian
